import Mathlib

/-!
Verification of the sftpgo-manager tenant-provisioning and authentication
core, shallowly embedded from the Go source (handlers.go, worker.go, the
registry layer and the SFTPGo admin client).  HTTP, SQLite, the external
SFTPGo server and the object store are modelled at their interface
boundary: registry state is an explicit value, external calls are oracle
parameters, random byte strings and clock readings are explicit arguments.
-/

namespace SftpgoManager

/-- Go strings.ToLower, over the character list. -/
def goToLower (s : String) : String := ⟨s.data.map Char.toLower⟩

/-- Go strings.TrimSpace: drop leading and trailing whitespace. -/
def goTrim (s : String) : String :=
  ⟨((s.data.dropWhile Char.isWhitespace).reverse.dropWhile Char.isWhitespace).reverse⟩

/-- Splitting on single whitespace characters, keeping empty pieces. -/
def splitWsAux : List Char → List Char → List String
  | [], acc => [⟨acc.reverse⟩]
  | c :: rest, acc =>
    if c.isWhitespace then ⟨acc.reverse⟩ :: splitWsAux rest []
    else splitWsAux rest (c :: acc)

/-- Go strings.Fields: split on runs of whitespace, no empty fields. -/
def goFields (s : String) : List String :=
  (splitWsAux s.data []).filter (fun t => t != "")

/-- Go strings.HasSuffix. -/
def goHasSuffix (s suffixStr : String) : Bool := suffixStr.data.isSuffixOf s.data

/-- Go strings.TrimPrefix(s, "/"): strip one leading slash if present. -/
def trimLeadingSlash (s : String) : String :=
  match s.data with
  | '/' :: rest => ⟨rest⟩
  | _ => s

/-- Tenant row of the tenants table (unnamed/part_002, struct Tenant).
The SQLite rowid is a Nat; created_at is an abstract clock reading. -/
structure Tenant where
  id : Nat
  tenantID : String
  username : String
  password : String
  publicKey : String
  homeDir : String
  createdAt : Nat
deriving DecidableEq, Repr

/-- Record row of the records table (unnamed/part_002, struct Record).
The REAL value column is modelled as a rational number. -/
structure Record where
  id : Nat
  tenantID : String
  recordKey : String
  title : String
  description : String
  category : String
  value : Rat
  updatedAt : Nat
deriving DecidableEq, Repr

/-- The configuration fields the handlers consult (unnamed/part_003,
struct Config); only the S3/data-dir fields matter to the claims. -/
structure Config where
  dataDir : String
  s3Bucket : String
  s3Region : String
  s3Endpoint : String
  s3AccessKey : String
  s3SecretKey : String
deriving DecidableEq, Repr

/-- The s3config block of an SFTPGo user descriptor as built by
ExternalAuthHook (handlers.go lines 318-332) and CreateUser. -/
structure S3FsConfig where
  provider : Nat
  bucket : String
  region : String
  endpoint : String
  accessKey : String
  secretPayload : String
  keyPrefix : String
  forcePathStyle : Bool
  skipTLSVerify : Bool
deriving DecidableEq, Repr

/-- The SFTPGo user descriptor the auth hook returns on success
(handlers.go lines 306-332); optional JSON fields are Options. -/
structure SFTPGoUser where
  status : Nat
  username : String
  homeDir : String
  permissions : List (String × List String)
  password : Option String
  publicKeys : Option (List String)
  filesystem : Option S3FsConfig
deriving DecidableEq, Repr

/-- The decoded auth-hook request body (handlers.go lines 263-269). -/
structure AuthRequest where
  username : String
  password : String
  publicKey : String
  protocol : String
  ip : String
deriving DecidableEq, Repr

/-- The public-key comparison of the auth hook (handlers.go lines
286-292): trim, split both keys into whitespace fields, require at least
two fields on each side and equal second fields. -/
def pubKeyFieldsMatch (reqKey storedKey : String) : Bool :=
  let reqParts := goFields (goTrim reqKey)
  let storedParts := goFields (goTrim storedKey)
  decide (2 ≤ reqParts.length) && decide (2 ≤ storedParts.length)
    && decide (reqParts[1]? = storedParts[1]?)

/-- The credential check of the auth hook (handlers.go lines 284-298):
public key first, then password if the key did not authenticate. -/
def authenticate (req : AuthRequest) (t : Tenant) : Bool :=
  let viaKey := req.publicKey != "" && t.publicKey != ""
    && pubKeyFieldsMatch req.publicKey t.publicKey
  if viaKey then true
  else req.password != "" && t.password != "" && req.password == t.password

/-- The user descriptor built on auth success (handlers.go lines 306-332):
password and public key only when stored non-empty, filesystem block only
when an S3 endpoint is configured. -/
def buildSFTPGoUser (cfg : Config) (t : Tenant) : SFTPGoUser :=
  { status := 1
    username := t.username
    homeDir := t.homeDir
    permissions := [("/", ["*"])]
    password := if t.password != "" then some t.password else none
    publicKeys := if t.publicKey != "" then some [t.publicKey] else none
    filesystem :=
      if cfg.s3Endpoint != "" then
        some { provider := 1
               bucket := cfg.s3Bucket
               region := cfg.s3Region
               endpoint := cfg.s3Endpoint
               accessKey := cfg.s3AccessKey
               secretPayload := cfg.s3SecretKey
               keyPrefix := t.tenantID ++ "/"
               forcePathStyle := true
               skipTLSVerify := true }
      else none }

/-- Body of an auth-hook HTTP response: either plain text written through
http.Error, or the JSON user descriptor written through writeJSON. -/
inductive HookBody where
  | text (s : String)
  | descriptor (u : SFTPGoUser)
deriving DecidableEq, Repr

/-- An auth-hook HTTP response: status code and body. -/
structure HookResponse where
  status : Nat
  body : HookBody
deriving DecidableEq, Repr

/-- The body http.Error writes on a malformed auth-hook request
(handlers.go line 271): a JSON object with an empty username. -/
def jsonEmptyUsername : String := "\x7b\x22username\x22:\x22\x22\x7d"

/-- ExternalAuthHook (handlers.go lines 258-336).  The request body is
none when JSON decoding failed; the registry lookup GetTenantByUsername
is a function from username to an optional tenant. -/
def externalAuthHook (registry : String → Option Tenant) (cfg : Config)
    (body : Option AuthRequest) : HookResponse :=
  match body with
  | none => { status := 200, body := .text jsonEmptyUsername }
  | some req =>
    match registry req.username with
    | none => { status := 403, body := .text "" }
    | some t =>
      if authenticate req t then
        { status := 200, body := .descriptor (buildSFTPGoUser cfg t) }
      else
        { status := 403, body := .text "" }

/-- Spec-side public-key match condition, following the spec's words:
both sides supply a key, both split into at least two whitespace fields,
and the second fields are exactly equal. -/
def specKeyMatch (reqKey storedKey : String) : Prop :=
  reqKey ≠ "" ∧ storedKey ≠ "" ∧
  2 ≤ (goFields (goTrim reqKey)).length ∧ 2 ≤ (goFields (goTrim storedKey)).length ∧
  (goFields (goTrim reqKey))[1]? = (goFields (goTrim storedKey))[1]?

/-- Spec-side password match condition: both passwords non-empty and
exactly equal. -/
def specPwMatch (reqPw storedPw : String) : Prop :=
  reqPw ≠ "" ∧ storedPw ≠ "" ∧ reqPw = storedPw

/-- A hook response counts as authenticated when it carries a user
descriptor. -/
def HookResponse.isAuthenticated : HookResponse → Prop
  | { body := .descriptor _, .. } => True
  | _ => False

/-- Registry state: the tenants and records tables (unnamed/part_002).
The api_keys table plays no role in the claims. -/
structure DBState where
  tenants : List Tenant
  records : List Record
deriving DecidableEq, Repr

/-- The empty registry, as after NewDB migrations on a fresh database. -/
def DBState.empty : DBState := { tenants := [], records := [] }

/-- Next SQLite rowid for an INTEGER PRIMARY KEY: one more than the
largest id present. -/
def nextRowId (ids : List Nat) : Nat := ids.foldr max 0 + 1

/-- DB.CreateTenant (unnamed/part_002 lines 117-134): INSERT INTO tenants.
The UNIQUE constraints on tenant_id and username (schema lines 62-70) make
the insert fail when either value is already present. -/
def DBState.createTenant (s : DBState) (tenantID username password publicKey homeDir : String)
    (now : Nat) : Except String (Tenant × DBState) :=
  if s.tenants.any (fun t => t.tenantID == tenantID || t.username == username) then
    .error "insert tenant: UNIQUE constraint failed"
  else
    let t : Tenant :=
      { id := nextRowId (s.tenants.map Tenant.id)
        tenantID := tenantID, username := username, password := password
        publicKey := publicKey, homeDir := homeDir, createdAt := now }
    .ok (t, { s with tenants := s.tenants ++ [t] })

/-- DB.DeleteTenant (unnamed/part_002 lines 189-198): resolve the row's
username by id, then delete the row; not found is an error. -/
def DBState.deleteTenant (s : DBState) (id : Nat) : Except String (String × DBState) :=
  match s.tenants.find? (fun t => t.id == id) with
  | none => .error "find tenant: no rows"
  | some t =>
    .ok (t.username, { s with tenants := s.tenants.filter (fun u => u.id != id) })

/-- The ON CONFLICT target of the records table: a row matches when its
tenant_id and record_key equal the given pair. -/
def recMatches (tenantID recordKey : String) (r : Record) : Bool :=
  r.tenantID == tenantID && r.recordKey == recordKey

/-- The DO UPDATE clause of DB.UpsertRecord applied to one row: a
conflicting row receives the new title, description, category, value and
timestamp; other rows are untouched. -/
def applyRecUpdate (tenantID recordKey title description category : String) (value : Rat)
    (now : Nat) (r : Record) : Record :=
  if recMatches tenantID recordKey r then
    { r with title := title, description := description, category := category
             value := value, updatedAt := now }
  else r

/-- DB.UpsertRecord (unnamed/part_002 lines 200-217): INSERT ... ON
CONFLICT(tenant_id, record_key) DO UPDATE of title, description, category,
value and updated_at (CURRENT_TIMESTAMP is the now argument). -/
def DBState.upsertRecord (s : DBState) (tenantID recordKey title description category : String)
    (value : Rat) (now : Nat) : DBState :=
  if s.records.any (recMatches tenantID recordKey) then
    { s with records :=
        s.records.map (applyRecUpdate tenantID recordKey title description category value now) }
  else
    let r : Record :=
      { id := nextRowId (s.records.map Record.id)
        tenantID := tenantID, recordKey := recordKey, title := title
        description := description, category := category, value := value, updatedAt := now }
    { s with records := s.records ++ [r] }

/-- GetTenantByUsername (unnamed/part_002 lines 168-177): lookup by the
unique username column. -/
def DBState.getTenantByUsername (s : DBState) (username : String) : Option Tenant :=
  s.tenants.find? (fun t => t.username == username)

/-- Outcome of a call to the external SFTPGo admin API, abstracted as an
oracle: the call either succeeds or fails with a message. -/
inductive ExtResult where
  | ok
  | fail (msg : String)
deriving DecidableEq, Repr

/-- The decoded tenant-creation request body (handlers.go lines 68-72). -/
structure CreateReq where
  username : String
  password : String
  publicKey : String
deriving DecidableEq, Repr

/-- Response of the CreateTenant handler, one constructor per exit path
of handlers.go lines 63-128. -/
inductive CreateResp where
  | badRequest
  | gatewayError (msg : String)
  | dbError (msg : String)
  | created (t : Tenant) (password tenantID : String)
deriving DecidableEq, Repr

/-- HTTP status of each CreateTenant exit path. -/
def createStatus : CreateResp → Nat
  | .badRequest => 400
  | .gatewayError _ => 502
  | .dbError _ => 500
  | .created _ _ _ => 201

/-- Handlers.CreateTenant (handlers.go lines 63-128).  A failed body
decode and a missing username both take the 400 path, so the decoded
request is a CreateReq with the empty username standing for both; the
generated password and tenant id (crypto/rand hex) are arguments; the
external CreateUser call is the ext oracle, consulted before any registry
write. -/
def createTenantHandler (s : DBState) (cfg : Config) (ext : ExtResult) (req : CreateReq)
    (genPassword tenantID : String) (now : Nat) : CreateResp × DBState :=
  if req.username = "" then (.badRequest, s)
  else
    let password := if req.password = "" then genPassword else req.password
    let homeDir := cfg.dataDir ++ "/" ++ tenantID
    match ext with
    | .fail msg => (.gatewayError msg, s)
    | .ok =>
      match s.createTenant tenantID req.username password req.publicKey homeDir now with
      | .error e => (.dbError e, s)
      | .ok (t, s') => (.created t password tenantID, s')

/-- Response of the DeleteTenant handler, one constructor per exit path
of handlers.go lines 192-212. -/
inductive DeleteResp where
  | notFound
  | gatewayError (msg : String)
  | deleted
deriving DecidableEq, Repr

/-- HTTP status of each DeleteTenant exit path. -/
def deleteStatus : DeleteResp → Nat
  | .notFound => 404
  | .gatewayError _ => 502
  | .deleted => 200

/-- Handlers.DeleteTenant (handlers.go lines 192-212): registry deletion
first; only then the external DeleteUser call, whose failure is wrapped
with the split-state message and returned as 502. -/
def deleteTenantHandler (s : DBState) (ext : ExtResult) (id : Nat) : DeleteResp × DBState :=
  match s.deleteTenant id with
  | .error _ => (.notFound, s)
  | .ok (_, s') =>
    match ext with
    | .fail msg => (.gatewayError ("deleted from db but sftpgo failed: " ++ msg), s')
    | .ok => (.deleted, s')

/-- Arguments of one DB.CreateTenant call, for sequences of creations. -/
structure CreateArgs where
  tenantID : String
  username : String
  password : String
  publicKey : String
  homeDir : String
  now : Nat
deriving DecidableEq, Repr

/-- Apply a sequence of DB.CreateTenant calls; a failed insert leaves the
state unchanged and the sequence continues. -/
def applyCreates (s : DBState) : List CreateArgs → DBState
  | [] => s
  | a :: rest =>
    match s.createTenant a.tenantID a.username a.password a.publicKey a.homeDir a.now with
    | .error _ => applyCreates s rest
    | .ok (_, s') => applyCreates s' rest

/-- Invariant of the tenants table: no two rows share a username or a
tenant token (the UNIQUE columns of the schema). -/
def tenantsUnique (s : DBState) : Prop :=
  s.tenants.Pairwise (fun a b => a.username ≠ b.username ∧ a.tenantID ≠ b.tenantID)

/-- Invariant of the records table: no two rows share the
(tenant token, record key) pair (the UNIQUE(tenant_id, record_key)
constraint). -/
def recordsUnique (s : DBState) : Prop :=
  s.records.Pairwise (fun a b => a.tenantID ≠ b.tenantID ∨ a.recordKey ≠ b.recordKey)

/-- Column-name canonicalisation of the worker (worker.go line 84):
strings.TrimSpace(strings.ToLower(h)). -/
def canonCol (h : String) : String := goTrim (goToLower h)

/-- The colIndex map built from the header row (worker.go lines 82-85),
as the association list of canonical name to position; a later duplicate
column name overwrites an earlier one, so lookup takes the last binding. -/
def buildColIndex (header : List String) : List (String × Nat) :=
  header.enum.map (fun p => (canonCol p.2, p.1))

/-- Lookup in the colIndex map; Go map semantics make the last insertion
for a name win. -/
def lookupCol (m : List (String × Nat)) (name : String) : Option Nat :=
  m.reverse.lookup name

/-- The required CSV columns (worker.go line 86). -/
def requiredCols : List String := ["key", "title", "value"]

/-- Field access row[colIndex[name]] for a name known to be present; the
csv reader guarantees every delivered row has the header's field count,
so the index is in range for well-formed input (out-of-range reads the
empty string in the model). -/
def getField (colIndex : List (String × Nat)) (row : List String) (name : String) : String :=
  row.getD ((lookupCol colIndex name).getD 0) ""

/-- Optional field access for description/category (worker.go lines
107-115): empty string when the column is absent. -/
def getOptField (colIndex : List (String × Nat)) (row : List String) (name : String) : String :=
  match lookupCol colIndex name with
  | some idx => goTrim (row.getD idx "")
  | none => ""

/-- The per-row loop of ProcessUploadEvent (worker.go lines 93-128) over
the data rows the csv reader delivers without error.  parseValue models
strconv.ParseFloat on the trimmed value field (none on parse failure);
upsertOk models per-statement storage outcomes by row position (false
means DB.UpsertRecord returned an error, leaving the state unchanged).
Returns the final registry state and the processed-row count. -/
def processRows (tenantID : String) (colIndex : List (String × Nat))
    (parseValue : String → Option Rat) (upsertOk : Nat → Bool) (now : Nat) :
    DBState → Nat → List (List String) → DBState × Nat
  | db, _, [] => (db, 0)
  | db, i, row :: rest =>
    let recordKey := goTrim (getField colIndex row "key")
    let title := goTrim (getField colIndex row "title")
    let description := getOptField colIndex row "description"
    let category := getOptField colIndex row "category"
    match parseValue (goTrim (getField colIndex row "value")) with
    | none => processRows tenantID colIndex parseValue upsertOk now db (i + 1) rest
    | some value =>
      if upsertOk i then
        let db' := db.upsertRecord tenantID recordKey title description category value now
        let (dbF, c) := processRows tenantID colIndex parseValue upsertOk now db' (i + 1) rest
        (dbF, c + 1)
      else
        processRows tenantID colIndex parseValue upsertOk now db (i + 1) rest

/-- Worker.ProcessUploadEvent (worker.go lines 45-131).  The event's
username and virtual_path are the results of the Go type assertions
(empty string when absent); the object store is an oracle from object key
to the parsed CSV rows (none models a fetch or header-read failure, an
empty list a file whose header read hits EOF); the first delivered row is
the header.  Every abandonment path returns the unchanged state and a
zero count. -/
def processUploadEvent (db : DBState) (store : String → Option (List (List String)))
    (parseValue : String → Option Rat) (upsertOk : Nat → Bool)
    (username virtualPath : String) (now : Nat) : DBState × Nat :=
  if username = "" || virtualPath = "" then (db, 0)
  else if !(goHasSuffix (goToLower virtualPath) ".csv") then (db, 0)
  else
    match db.getTenantByUsername username with
    | none => (db, 0)
    | some tenant =>
      let objectKey := tenant.tenantID ++ "/" ++ trimLeadingSlash virtualPath
      match store objectKey with
      | none => (db, 0)
      | some [] => (db, 0)
      | some (header :: rows) =>
        let colIndex := buildColIndex header
        if requiredCols.all (fun c => (lookupCol colIndex c).isSome) then
          processRows tenant.tenantID colIndex parseValue upsertOk now db 0 rows
        else (db, 0)

/-- Token cache of the SFTPGo client (unnamed/part_005 lines 14-22):
the cached token string and its refresh threshold, in seconds.  The empty
token is the zero value before the first acquisition. -/
structure TokenState where
  token : String
  tokenExp : Int
deriving DecidableEq, Repr

/-- One reply of the external token endpoint: the access token and its
reported expiry time, in seconds; none models a failed request. -/
def TokenReply := Option (String × Int)

/-- SFTPGoClient.getToken (unnamed/part_005 lines 29-64) under the lock:
return the cached token when it is non-empty and now is before the stored
threshold; otherwise consult the token endpoint (the fetch oracle) and
cache the new token with threshold thirty seconds before its reported
expiry. -/
def getToken (st : TokenState) (now : Int) (fetch : TokenReply) :
    Except String (String × TokenState) :=
  if st.token != "" && decide (now < st.tokenExp) then
    .ok (st.token, st)
  else
    match fetch with
    | none => .error "token request failed"
    | some (tok, expiresAt) => .ok (tok, { token := tok, tokenExp := expiresAt - 30 })

/-- Test fixture: a tenant with both credentials stored. -/
def tenant0 : Tenant :=
  { id := 1, tenantID := "tid0", username := "acme", password := "pw-secret"
    publicKey := "ssh-ed25519 AAAAC3keymaterial comment"
    homeDir := "/srv/sftpgo/data/tid0", createdAt := 0 }

/-- Test fixture: a tenant with empty stored credentials. -/
def tenant1 : Tenant :=
  { id := 2, tenantID := "tid1", username := "nobody", password := "", publicKey := ""
    homeDir := "/srv/sftpgo/data/tid1", createdAt := 0 }

/-- Test fixture registry lookup holding tenant0 and tenant1. -/
def registry0 : String → Option Tenant :=
  fun u => if u = "acme" then some tenant0 else if u = "nobody" then some tenant1 else none

/-- Test fixture configuration without S3 integration. -/
def cfg0 : Config :=
  { dataDir := "/srv/sftpgo/data", s3Bucket := "", s3Region := "", s3Endpoint := ""
    s3AccessKey := "", s3SecretKey := "" }

/-- Test fixture auth request matching tenant0's password. -/
def req0 : AuthRequest :=
  { username := "acme", password := "pw-secret", publicKey := ""
    protocol := "SFTP", ip := "127.0.0.1" }

/-- Test fixture auth request for an unknown username. -/
def reqUnknown : AuthRequest :=
  { username := "ghost", password := "x", publicKey := ""
    protocol := "SFTP", ip := "127.0.0.1" }

/-- Test fixture auth request with the wrong password. -/
def reqWrong : AuthRequest :=
  { username := "acme", password := "nope", publicKey := ""
    protocol := "SFTP", ip := "127.0.0.1" }

/-- Test fixture auth request with empty credentials, aimed at tenant1. -/
def reqEmpty : AuthRequest :=
  { username := "nobody", password := "", publicKey := ""
    protocol := "SFTP", ip := "127.0.0.1" }

/-- Test fixture registry state holding tenant0. -/
def dbAcme : DBState := { tenants := [tenant0], records := [] }

/-- Test fixture object store: one CSV whose header lacks the value
column. -/
def storeMissingValue : String → Option (List (List String)) :=
  fun k => if k = "tid0/data.csv" then some [["key", "title"], ["a", "b"]] else none

/-- Test fixture value parser recognising the strings 1 and 2. -/
def parseOneTwo : String → Option Rat :=
  fun s => if s = "1" then some 1 else if s = "2" then some 2 else none

theorem authenticate_eq_true_iff (req : AuthRequest) (t : Tenant) :
    authenticate req t = true ↔
      (specKeyMatch req.publicKey t.publicKey ∨
        (¬ specKeyMatch req.publicKey t.publicKey ∧ specPwMatch req.password t.password)) := by
  by_cases hk : specKeyMatch req.publicKey t.publicKey
  · have hb : (req.publicKey != "" && t.publicKey != ""
        && pubKeyFieldsMatch req.publicKey t.publicKey) = true := by
      obtain ⟨h1, h2, h3, h4, h5⟩ := hk
      simp [pubKeyFieldsMatch, h1, h2, h3, h4, h5]
    simp [authenticate, hb, hk]
  · have hb : (req.publicKey != "" && t.publicKey != ""
        && pubKeyFieldsMatch req.publicKey t.publicKey) = false := by
      rw [Bool.eq_false_iff]
      intro hc
      apply hk
      unfold specKeyMatch
      simp only [pubKeyFieldsMatch, Bool.and_eq_true, bne_iff_ne, ne_eq,
        decide_eq_true_eq] at hc
      tauto
    simp [authenticate, hb, hk, specPwMatch, Bool.and_eq_true, bne_iff_ne, beq_iff_eq,
      and_assoc]

/-- C1: for a request whose username resolves to a tenant, the auth hook
authenticates exactly when the public-key fields match, or, failing that,
when both passwords are non-empty and equal; the key check is attempted
first. -/
theorem auth_hook_credential_check (registry : String → Option Tenant) (cfg : Config)
    (req : AuthRequest) (t : Tenant) (h : registry req.username = some t) :
    (externalAuthHook registry cfg (some req)).isAuthenticated ↔
      (specKeyMatch req.publicKey t.publicKey ∨
        (¬ specKeyMatch req.publicKey t.publicKey ∧
          specPwMatch req.password t.password)) := by
  rw [← authenticate_eq_true_iff req t]
  simp only [externalAuthHook, h]
  cases ha : authenticate req t <;>
    simp [HookResponse.isAuthenticated, ha]

/-- Witness for C1 at a concrete registry, request and tenant. -/
theorem auth_hook_credential_check_witness :
    registry0 "acme" = some tenant0 ∧
      ((externalAuthHook registry0 cfg0 (some req0)).isAuthenticated ↔
        (specKeyMatch req0.publicKey tenant0.publicKey ∨
          (¬ specKeyMatch req0.publicKey tenant0.publicKey ∧
            specPwMatch req0.password tenant0.password))) :=
  ⟨rfl, auth_hook_credential_check registry0 cfg0 req0 tenant0 rfl⟩

/-- C10: a tenant whose stored password and stored public key are both
empty is rejected with forbidden whatever credentials the request offers;
in particular an empty offered password never matches the empty stored
one. -/
theorem auth_hook_empty_stored_credentials (registry : String → Option Tenant)
    (cfg : Config) (req : AuthRequest) (t : Tenant)
    (h : registry req.username = some t) (hp : t.password = "") (hk : t.publicKey = "") :
    externalAuthHook registry cfg (some req) = { status := 403, body := .text "" } := by
  have ha : authenticate req t = false := by
    simp [authenticate, pubKeyFieldsMatch, hp, hk]
  simp only [externalAuthHook, h, ha]
  simp

/-- Witness for C10: tenant1 stores no credentials; a request offering
the empty password is rejected. -/
theorem auth_hook_empty_stored_credentials_witness :
    registry0 "nobody" = some tenant1 ∧ tenant1.password = "" ∧ tenant1.publicKey = "" ∧
      externalAuthHook registry0 cfg0 (some reqEmpty) = { status := 403, body := .text "" } :=
  ⟨rfl, rfl, rfl,
    auth_hook_empty_stored_credentials registry0 cfg0 reqEmpty tenant1 rfl rfl rfl⟩

/-- Counterexample to C3: a malformed auth-hook request body is answered
with status 200 and the non-empty body of jsonEmptyUsername, not with a
forbidden status and an empty body. -/
theorem auth_hook_malformed_not_forbidden :
    (externalAuthHook registry0 cfg0 none).status = 200 ∧
      (externalAuthHook registry0 cfg0 none).body = .text jsonEmptyUsername ∧
      jsonEmptyUsername ≠ "" ∧ (externalAuthHook registry0 cfg0 none).status ≠ 403 := by
  refine ⟨rfl, rfl, ?_, ?_⟩ <;> decide

/-- C3 as amended: unknown-username and failed-credential requests are
answered 403 with an empty body and only successful authentications
return a user descriptor, but a malformed request body is answered 200
with an empty-username JSON object. -/
theorem auth_hook_failure_responses (registry : String → Option Tenant) (cfg : Config)
    (body : Option AuthRequest) :
    (body = none →
      externalAuthHook registry cfg body = { status := 200, body := .text jsonEmptyUsername }) ∧
    (∀ req, body = some req → registry req.username = none →
      externalAuthHook registry cfg body = { status := 403, body := .text "" }) ∧
    (∀ req t, body = some req → registry req.username = some t → authenticate req t = false →
      externalAuthHook registry cfg body = { status := 403, body := .text "" }) ∧
    (∀ req t, body = some req → registry req.username = some t → authenticate req t = true →
      externalAuthHook registry cfg body =
        { status := 200, body := .descriptor (buildSFTPGoUser cfg t) }) := by
  refine ⟨?_, ?_, ?_, ?_⟩
  · rintro rfl; rfl
  · rintro req rfl hr; simp [externalAuthHook, hr]
  · rintro req t rfl hr ha; simp [externalAuthHook, hr, ha]
  · rintro req t rfl hr ha; simp [externalAuthHook, hr, ha]

/-- Witness for the amended C3 at concrete requests: one malformed body,
one unknown username, one wrong password, one success. -/
theorem auth_hook_failure_responses_witness :
    (externalAuthHook registry0 cfg0 none = { status := 200, body := .text jsonEmptyUsername }) ∧
    (externalAuthHook registry0 cfg0 (some reqUnknown) = { status := 403, body := .text "" }) ∧
    (externalAuthHook registry0 cfg0 (some reqWrong) = { status := 403, body := .text "" }) ∧
    (externalAuthHook registry0 cfg0 (some req0) =
      { status := 200, body := .descriptor (buildSFTPGoUser cfg0 tenant0) }) :=
  ⟨(auth_hook_failure_responses registry0 cfg0 none).1 rfl,
   (auth_hook_failure_responses registry0 cfg0 (some reqUnknown)).2.1 reqUnknown rfl rfl,
   (auth_hook_failure_responses registry0 cfg0 (some reqWrong)).2.2.1 reqWrong tenant0 rfl rfl
     (by decide),
   (auth_hook_failure_responses registry0 cfg0 (some req0)).2.2.2 req0 tenant0 rfl rfl
     (by decide)⟩

/-- C2: when the external create-user call fails, the CreateTenant
handler answers 502 and the registry state is unchanged. -/
theorem create_external_failure_leaves_registry (s : DBState) (cfg : Config)
    (req : CreateReq) (genPassword tenantID : String) (now : Nat) (msg : String)
    (h : req.username ≠ "") :
    createTenantHandler s cfg (.fail msg) req genPassword tenantID now =
        (.gatewayError msg, s) ∧
      createStatus (createTenantHandler s cfg (.fail msg) req genPassword tenantID now).1 =
        502 := by
  have hr : createTenantHandler s cfg (.fail msg) req genPassword tenantID now =
      (.gatewayError msg, s) := by
    simp [createTenantHandler, h]
  exact ⟨hr, by rw [hr]; rfl⟩

/-- Witness for C2 with a concrete request against the fixture state. -/
theorem create_external_failure_leaves_registry_witness :
    ("alice" : String) ≠ "" ∧
      createTenantHandler DBState.empty cfg0 (.fail "boom")
          { username := "alice", password := "", publicKey := "" } "gen" "tidX" 7 =
        (.gatewayError "boom", DBState.empty) ∧
      createStatus (createTenantHandler DBState.empty cfg0 (.fail "boom")
          { username := "alice", password := "", publicKey := "" } "gen" "tidX" 7).1 = 502 :=
  ⟨by decide,
   (create_external_failure_leaves_registry DBState.empty cfg0
      { username := "alice", password := "", publicKey := "" } "gen" "tidX" 7 "boom"
      (by decide)).1,
   (create_external_failure_leaves_registry DBState.empty cfg0
      { username := "alice", password := "", publicKey := "" } "gen" "tidX" 7 "boom"
      (by decide)).2⟩

/-- Counterexample to C8: a registry write that fails after a successful
external create is answered 500 with the bare registry error, not 502
with a split-state message. -/
theorem split_state_create_direction_500 :
    createTenantHandler dbAcme cfg0 .ok
        { username := "acme", password := "p", publicKey := "" } "gen" "tid9" 5 =
      (.dbError "insert tenant: UNIQUE constraint failed", dbAcme) ∧
    createStatus (createTenantHandler dbAcme cfg0 .ok
        { username := "acme", password := "p", publicKey := "" } "gen" "tid9" 5).1 = 500 ∧
    (500 : Nat) ≠ 502 := by
  refine ⟨by decide, by decide, by decide⟩

/-- C8 as amended: the external delete failing after a successful
registry delete is surfaced as 502 with an explicit split-state message,
while the registry write failing after a successful external create is
answered 500 carrying only the registry error. -/
theorem split_state_surfacing (s : DBState) (cfg : Config) (req : CreateReq)
    (genPassword tenantID : String) (now : Nat) (id : Nat) (msg : String) :
    (∀ username s', s.deleteTenant id = .ok (username, s') →
      deleteTenantHandler s (.fail msg) id =
          (.gatewayError ("deleted from db but sftpgo failed: " ++ msg), s') ∧
        deleteStatus (deleteTenantHandler s (.fail msg) id).1 = 502) ∧
    (∀ e, req.username ≠ "" →
      s.createTenant tenantID req.username
          (if req.password = "" then genPassword else req.password) req.publicKey
          (cfg.dataDir ++ "/" ++ tenantID) now = .error e →
      createTenantHandler s cfg .ok req genPassword tenantID now = (.dbError e, s) ∧
        createStatus (createTenantHandler s cfg .ok req genPassword tenantID now).1 = 500) := by
  constructor
  · intro username s' hd
    have hr : deleteTenantHandler s (.fail msg) id =
        (.gatewayError ("deleted from db but sftpgo failed: " ++ msg), s') := by
      simp [deleteTenantHandler, hd]
    exact ⟨hr, by rw [hr]; rfl⟩
  · intro e hu hc
    have hr : createTenantHandler s cfg .ok req genPassword tenantID now = (.dbError e, s) := by
      simp [createTenantHandler, hu, hc]
    exact ⟨hr, by rw [hr]; rfl⟩

/-- Witness for the amended C8: both second-step failures at concrete
states. -/
theorem split_state_surfacing_witness :
    (deleteTenantHandler dbAcme (.fail "net down") 1 =
        (.gatewayError ("deleted from db but sftpgo failed: " ++ "net down"), DBState.empty) ∧
      deleteStatus (deleteTenantHandler dbAcme (.fail "net down") 1).1 = 502) ∧
    (createTenantHandler dbAcme cfg0 .ok
          { username := "acme", password := "", publicKey := "" } "gen" "tid9" 5 =
        (.dbError "insert tenant: UNIQUE constraint failed", dbAcme) ∧
      createStatus (createTenantHandler dbAcme cfg0 .ok
          { username := "acme", password := "", publicKey := "" } "gen" "tid9" 5).1 = 500) :=
  ⟨(split_state_surfacing dbAcme cfg0
      { username := "acme", password := "", publicKey := "" } "gen" "tid9" 5 1 "net down").1
      "acme" DBState.empty rfl,
   (split_state_surfacing dbAcme cfg0
      { username := "acme", password := "", publicKey := "" } "gen" "tid9" 5 1 "net down").2
      "insert tenant: UNIQUE constraint failed" (by decide) rfl⟩

theorem createTenant_ok_preserves_unique (s : DBState)
    (tenantID username password publicKey homeDir : String) (now : Nat)
    (t : Tenant) (s' : DBState) (hu : tenantsUnique s)
    (hc : s.createTenant tenantID username password publicKey homeDir now = .ok (t, s')) :
    tenantsUnique s' := by
  unfold DBState.createTenant at hc
  split at hc
  · exact absurd hc (by simp)
  · rename_i hany
    simp only [Except.ok.injEq, Prod.mk.injEq] at hc
    obtain ⟨-, hs'⟩ := hc
    subst hs'
    unfold tenantsUnique at hu ⊢
    simp only [List.pairwise_append, List.pairwise_singleton, true_and]
    refine ⟨hu, ?_⟩
    intro a ha b hb
    rw [List.mem_singleton] at hb
    subst hb
    have hna : (a.tenantID == tenantID || a.username == username) = false := by
      by_contra hcon
      exact hany (List.any_eq_true.mpr ⟨a, ha, by
        cases hx : (a.tenantID == tenantID || a.username == username) with
        | true => rfl
        | false => exact absurd hx hcon⟩)
    simp only [Bool.or_eq_false_iff, beq_eq_false_iff_ne, ne_eq] at hna
    exact ⟨hna.2, hna.1⟩

/-- C5: inserting a tenant whose username or tenant token already exists
fails, and any sequence of tenant creations preserves the invariant that
no two registry rows share a username or a tenant token. -/
theorem tenant_uniqueness (s : DBState) (ops : List CreateArgs) (a : CreateArgs) :
    ((∃ t ∈ s.tenants, a.username = t.username ∨ a.tenantID = t.tenantID) →
      ∃ e, s.createTenant a.tenantID a.username a.password a.publicKey a.homeDir a.now =
        .error e) ∧
    (tenantsUnique s → tenantsUnique (applyCreates s ops)) := by
  constructor
  · rintro ⟨t, ht, hor⟩
    unfold DBState.createTenant
    rw [if_pos]
    · exact ⟨_, rfl⟩
    · refine List.any_eq_true.mpr ⟨t, ht, ?_⟩
      cases hor with
      | inl h => simp [h]
      | inr h => simp [h]
  · induction ops generalizing s with
    | nil => intro h; exact h
    | cons a' rest ih =>
      intro hu
      rcases hc : s.createTenant a'.tenantID a'.username a'.password a'.publicKey a'.homeDir
          a'.now with e | ⟨t', s'⟩
      · simp only [applyCreates, hc]
        exact ih s hu
      · simp only [applyCreates, hc]
        exact ih s' (createTenant_ok_preserves_unique s a'.tenantID a'.username a'.password
          a'.publicKey a'.homeDir a'.now t' s' hu hc)

/-- Witness for C5: creating a second acme fails concretely, and a
concrete creation sequence keeps the invariant. -/
theorem tenant_uniqueness_witness :
    (∃ e, dbAcme.createTenant "tidZ" "acme" "p" "" "/h" 3 = .error e) ∧
      tenantsUnique (applyCreates dbAcme
        [{ tenantID := "tid9", username := "bob", password := "p", publicKey := ""
           homeDir := "/h", now := 4 },
         { tenantID := "tid9", username := "carol", password := "p", publicKey := ""
           homeDir := "/h", now := 5 }]) :=
  ⟨(tenant_uniqueness dbAcme []
      { tenantID := "tidZ", username := "acme", password := "p", publicKey := ""
        homeDir := "/h", now := 3 }).1 ⟨tenant0, by simp [dbAcme], Or.inl rfl⟩,
   (tenant_uniqueness dbAcme
      [{ tenantID := "tid9", username := "bob", password := "p", publicKey := ""
         homeDir := "/h", now := 4 },
       { tenantID := "tid9", username := "carol", password := "p", publicKey := ""
         homeDir := "/h", now := 5 }]
      { tenantID := "tidZ", username := "acme", password := "p", publicKey := ""
        homeDir := "/h", now := 3 }).2
      (by simp [tenantsUnique, dbAcme])⟩

theorem recMatches_eq_true_iff (tenantID recordKey : String) (r : Record) :
    recMatches tenantID recordKey r = true ↔
      (r.tenantID = tenantID ∧ r.recordKey = recordKey) := by
  simp [recMatches]

theorem recMatches_applyRecUpdate (tenantID recordKey title description category : String)
    (value : Rat) (now : Nat) (r : Record) :
    recMatches tenantID recordKey
        (applyRecUpdate tenantID recordKey title description category value now r) =
      recMatches tenantID recordKey r := by
  unfold applyRecUpdate
  split
  · rename_i h
    rw [h]
    simp [recMatches_eq_true_iff]
    rw [recMatches_eq_true_iff] at h
    exact h
  · rfl

theorem countP_map_applyRecUpdate (tenantID recordKey title description category : String)
    (value : Rat) (now : Nat) (l : List Record) :
    (l.map (applyRecUpdate tenantID recordKey title description category value now)).countP
        (recMatches tenantID recordKey) =
      l.countP (recMatches tenantID recordKey) := by
  induction l with
  | nil => rfl
  | cons a l ih => simp [List.countP_cons, recMatches_applyRecUpdate, ih]

theorem countP_recMatches_le_one (tenantID recordKey : String) (l : List Record)
    (h : l.Pairwise (fun a b => a.tenantID ≠ b.tenantID ∨ a.recordKey ≠ b.recordKey)) :
    l.countP (recMatches tenantID recordKey) ≤ 1 := by
  induction l with
  | nil => simp
  | cons a l ih =>
    rw [List.pairwise_cons] at h
    obtain ⟨ha, hl⟩ := h
    rw [List.countP_cons]
    cases hp : recMatches tenantID recordKey a with
    | false => simpa using ih hl
    | true =>
      have hz : l.countP (recMatches tenantID recordKey) = 0 := by
        rw [List.countP_eq_zero]
        intro b hb hbm
        rw [recMatches_eq_true_iff] at hp hbm
        rcases ha b hb with h1 | h2
        · exact h1 (hp.1.trans hbm.1.symm)
        · exact h2 (hp.2.trans hbm.2.symm)
      simp [hz]

theorem upsert_hits (s : DBState) (tenantID recordKey title description category : String)
    (value : Rat) (now : Nat) :
    (s.upsertRecord tenantID recordKey title description category value now).records.any
      (recMatches tenantID recordKey) = true := by
  unfold DBState.upsertRecord
  split
  · rename_i hany
    rw [List.any_eq_true] at hany ⊢
    obtain ⟨r, hr, hm⟩ := hany
    exact ⟨applyRecUpdate tenantID recordKey title description category value now r,
      List.mem_map_of_mem _ hr, by rw [recMatches_applyRecUpdate]; exact hm⟩
  · rw [List.any_eq_true]
    refine ⟨_, List.mem_append_right _ (List.mem_singleton.mpr rfl), ?_⟩
    simp [recMatches]

theorem upsert_preserves_recordsUnique (s : DBState)
    (tenantID recordKey title description category : String) (value : Rat) (now : Nat)
    (hu : recordsUnique s) :
    recordsUnique (s.upsertRecord tenantID recordKey title description category value now) := by
  unfold recordsUnique at hu ⊢
  unfold DBState.upsertRecord
  split
  · refine List.Pairwise.map _ ?_ hu
    intro a b hab
    unfold applyRecUpdate
    split <;> split <;> simpa using hab
  · rename_i hany
    simp only [List.pairwise_append, List.pairwise_singleton, true_and]
    refine ⟨hu, ?_⟩
    intro a ha b hb
    rw [List.mem_singleton] at hb
    subst hb
    have hna : recMatches tenantID recordKey a = false := by
      by_contra hcon
      exact hany (List.any_eq_true.mpr ⟨a, ha, by
        cases hx : recMatches tenantID recordKey a with
        | true => rfl
        | false => exact absurd hx hcon⟩)
    have hna2 : ¬ (a.tenantID = tenantID ∧ a.recordKey = recordKey) := by
      rw [← recMatches_eq_true_iff, hna]
      simp
    show a.tenantID ≠ tenantID ∨ a.recordKey ≠ recordKey
    tauto

/-- C4: upserting the same (tenant token, record key) pair twice leaves
exactly one record for the pair, carrying the second call's title,
description, category, value and timestamp. -/
theorem upsert_last_write_wins (s : DBState) (hu : recordsUnique s)
    (tenantID recordKey t1 d1 c1 t2 d2 c2 : String) (v1 v2 : Rat) (n1 n2 : Nat) :
    (((s.upsertRecord tenantID recordKey t1 d1 c1 v1 n1).upsertRecord
        tenantID recordKey t2 d2 c2 v2 n2).records.countP
          (recMatches tenantID recordKey) = 1) ∧
    (∀ r ∈ ((s.upsertRecord tenantID recordKey t1 d1 c1 v1 n1).upsertRecord
        tenantID recordKey t2 d2 c2 v2 n2).records,
      recMatches tenantID recordKey r = true →
        r.title = t2 ∧ r.description = d2 ∧ r.category = c2 ∧
          r.value = v2 ∧ r.updatedAt = n2) := by
  set s1 := s.upsertRecord tenantID recordKey t1 d1 c1 v1 n1 with hs1
  have hu1 : recordsUnique s1 :=
    upsert_preserves_recordsUnique s tenantID recordKey t1 d1 c1 v1 n1 hu
  have hany1 : s1.records.any (recMatches tenantID recordKey) = true :=
    upsert_hits s tenantID recordKey t1 d1 c1 v1 n1
  have hs2 : (s1.upsertRecord tenantID recordKey t2 d2 c2 v2 n2).records =
      s1.records.map (applyRecUpdate tenantID recordKey t2 d2 c2 v2 n2) := by
    unfold DBState.upsertRecord
    rw [if_pos hany1]
  constructor
  · rw [hs2, countP_map_applyRecUpdate]
    have hle : s1.records.countP (recMatches tenantID recordKey) ≤ 1 :=
      countP_recMatches_le_one tenantID recordKey s1.records hu1
    have hpos : 0 < s1.records.countP (recMatches tenantID recordKey) := by
      rw [List.countP_pos_iff]
      rw [List.any_eq_true] at hany1
      exact hany1
    omega
  · intro r hr hm
    rw [hs2, List.mem_map] at hr
    obtain ⟨r0, hr0, rfl⟩ := hr
    by_cases h0 : recMatches tenantID recordKey r0 = true
    · simp [applyRecUpdate, h0]
    · rw [recMatches_applyRecUpdate] at hm
      exact absurd hm h0

/-- Witness for C4 from the empty registry. -/
theorem upsert_last_write_wins_witness :
    recordsUnique DBState.empty ∧
      ((DBState.empty.upsertRecord "tid0" "k1" "A" "d1" "c1" 1 10).upsertRecord
          "tid0" "k1" "B" "d2" "c2" 2 11).records.countP (recMatches "tid0" "k1") = 1 :=
  ⟨List.Pairwise.nil,
   (upsert_last_write_wins DBState.empty List.Pairwise.nil
      "tid0" "k1" "A" "d1" "c1" "B" "d2" "c2" 1 2 10 11).1⟩

/-- C6: a CSV whose canonical header lacks one of key, title or value is
abandoned whole: the registry is unchanged and zero rows are upserted. -/
theorem csv_missing_column_no_ingest (db : DBState)
    (store : String → Option (List (List String))) (parseValue : String → Option Rat)
    (upsertOk : Nat → Bool) (username virtualPath : String) (now : Nat)
    (tenant : Tenant) (header : List String) (rows : List (List String))
    (ht : db.getTenantByUsername username = some tenant)
    (hs : store (tenant.tenantID ++ "/" ++ trimLeadingSlash virtualPath) =
      some (header :: rows))
    (hm : requiredCols.all (fun c => (lookupCol (buildColIndex header) c).isSome) = false) :
    processUploadEvent db store parseValue upsertOk username virtualPath now = (db, 0) := by
  unfold processUploadEvent
  split
  · rfl
  · split
    · rfl
    · simp [ht, hs, hm]

/-- Witness for C6: a file with only key and title columns ingests
nothing. -/
theorem csv_missing_column_no_ingest_witness :
    dbAcme.getTenantByUsername "acme" = some tenant0 ∧
      storeMissingValue ("tid0" ++ "/" ++ trimLeadingSlash "/data.csv") =
        some [["key", "title"], ["a", "b"]] ∧
      processUploadEvent dbAcme storeMissingValue parseOneTwo (fun _ => true)
        "acme" "/data.csv" 0 = (dbAcme, 0) :=
  ⟨rfl, rfl,
   csv_missing_column_no_ingest dbAcme storeMissingValue parseOneTwo (fun _ => true)
     "acme" "/data.csv" 0 tenant0 ["key", "title"] [["a", "b"]] rfl rfl (by decide)⟩

/-- C7: a data row whose value fails to parse, or whose registry upsert
fails, is skipped: processing continues over the remaining rows of the
file exactly as if the bad row were absent. -/
theorem csv_bad_row_skipped (tenantID : String) (colIndex : List (String × Nat))
    (parseValue : String → Option Rat) (upsertOk : Nat → Bool) (now : Nat)
    (db : DBState) (i : Nat) (row : List String) (rest : List (List String))
    (h : parseValue (goTrim (getField colIndex row "value")) = none ∨ upsertOk i = false) :
    processRows tenantID colIndex parseValue upsertOk now db i (row :: rest) =
      processRows tenantID colIndex parseValue upsertOk now db (i + 1) rest := by
  rcases h with hp | hu
  · simp [processRows, hp]
  · cases hparse : parseValue (goTrim (getField colIndex row "value")) with
    | none => simp [processRows, hparse]
    | some v => simp [processRows, hparse, hu]

/-- Witness for C7: a non-numeric value row before a well-formed row. -/
theorem csv_bad_row_skipped_witness :
    parseOneTwo (goTrim (getField [("key", 0), ("title", 1), ("value", 2)]
        ["a", "b", "x"] "value")) = none ∧
      processRows "tid0" [("key", 0), ("title", 1), ("value", 2)] parseOneTwo
          (fun _ => true) 0 DBState.empty 0 [["a", "b", "x"], ["c", "d", "1"]] =
        processRows "tid0" [("key", 0), ("title", 1), ("value", 2)] parseOneTwo
          (fun _ => true) 0 DBState.empty 1 [["c", "d", "1"]] :=
  ⟨rfl,
   csv_bad_row_skipped "tid0" [("key", 0), ("title", 1), ("value", 2)] parseOneTwo
     (fun _ => true) 0 DBState.empty 0 ["a", "b", "x"] [["c", "d", "1"]] (Or.inl rfl)⟩

/-- C9: getToken returns the cached token without consulting the token
endpoint while the cached token is non-empty and now is before the stored
threshold, and otherwise re-acquires, caching the new token with a
threshold thirty seconds before its reported expiry. -/
theorem token_cache_reuse (st : TokenState) (now : Int) :
    (st.token ≠ "" → now < st.tokenExp →
      ∀ fetch : TokenReply, getToken st now fetch = .ok (st.token, st)) ∧
    (st.token = "" ∨ st.tokenExp ≤ now →
      getToken st now none = .error "token request failed" ∧
      ∀ tok expiresAt, getToken st now (some (tok, expiresAt)) =
        .ok (tok, { token := tok, tokenExp := expiresAt - 30 })) := by
  constructor
  · intro h1 h2 fetch
    have hb : (st.token != "" && decide (now < st.tokenExp)) = true := by
      simp [h1, h2]
    simp [getToken, hb]
  · intro h
    have hc : (st.token != "" && decide (now < st.tokenExp)) = false := by
      rcases h with h | h
      · simp [h]
      · have hn : ¬ (now < st.tokenExp) := not_lt.mpr h
        simp [hn]
    exact ⟨by simp [getToken, hc], fun tok e => by simp [getToken, hc]⟩

/-- Witness for C9: a cache hit at a concrete state and a refresh from
the zero-valued state. -/
theorem token_cache_reuse_witness :
    (("tok" : String) ≠ "" ∧ (50 : Int) < 100 ∧
      getToken { token := "tok", tokenExp := 100 } 50 none =
        .ok ("tok", { token := "tok", tokenExp := 100 })) ∧
    ((("" : String) = "" ∨ (0 : Int) ≤ 0) ∧
      getToken { token := "", tokenExp := 0 } 0 (some ("t2", 90)) =
        .ok ("t2", { token := "t2", tokenExp := 60 })) :=
  ⟨⟨by decide, by decide,
     (token_cache_reuse { token := "tok", tokenExp := 100 } 50).1 (by decide) (by decide) none⟩,
   ⟨Or.inl rfl, by
     have hw := ((token_cache_reuse { token := "", tokenExp := 0 } 0).2 (Or.inl rfl)).2 "t2" 90
     simpa using hw⟩⟩

end SftpgoManager
